import Mathlib

/-!
Verification of the momma-bear repository: a Shopify Hydrogen storefront
with a CI/CD pipeline (GitHub Actions), Playwright acceptance tests
(tests/e2e/critical.spec.js) and thin route loaders
(app/routes/account_.login.jsx).

The acceptance tests and the login loader are embedded directly from the
source. The workflow files themselves (ci.yml, pr-preview.yml,
merge-queue.yml, rollback.yml) are not present in the repository snapshot;
only their documentation is. The pipeline definitions below are therefore
modelled from the spec and the in-repo CI documentation, as marked on each
definition.
-/

namespace MommaBear

/-! ## Acceptance test embedding (tests/e2e/critical.spec.js)

Playwright semantics used by the embedding:

* `page.goto(url)` resolves to a `Response` object or `null`; we model it
  as the world function `gotoResult : String → Option Response`.
* `expect(response?.status()).toBe(200)`: when the response is `null`,
  optional chaining yields `undefined`, which is not `200`, so the
  assertion fails. `respStatusIs200` returns `false` on `none`.
* `expect(locator).toBeVisible({timeout})` polls until the element is
  visible or the timeout elapses. The world records, for each polled
  element, the first instant (in ms) at which it becomes visible
  (`none` = never); the assertion succeeds iff that instant is within the
  timeout.
* `expect(page).toHaveTitle(/Hydrogen/, {timeout: 10000})` polls until the
  document title matches the regex. The world records the rendered title
  and the instant it is set; the assertion succeeds iff the title contains
  the substring "Hydrogen" and it was set within the timeout.
* A failed `expect` throws, ending the test immediately; later statements
  do not run. Each test therefore returns the first failed assertion, or
  `passed`.
* `page.waitForLoadState('networkidle')` performs no assertion and is
  omitted.
-/

/-- A Playwright navigation response: we only ever read its HTTP status. -/
structure Response where
  status : Nat
  deriving DecidableEq, Repr

/-- `expect(response?.status()).toBe(200)`: `null` response fails. -/
def respStatusIs200 : Option Response → Bool
  | none => false
  | some r => r.status == 200

/-- `expect(locator).toBeVisible({timeout})`: the element must become
visible at some instant within the timeout. -/
def visibleWithin (firstVisible : Option Nat) (timeout : Nat) : Bool :=
  match firstVisible with
  | none => false
  | some t => t ≤ timeout

/-- JavaScript truthiness of the value returned by `getAttribute('href')`:
`null` and the empty string are falsy. -/
def truthyAttr : Option String → Bool
  | none => false
  | some s => !(s == "")

/-- Whether the first character list starts the second. -/
def startsWithChars : List Char → List Char → Bool
  | [], _ => true
  | _ :: _, [] => false
  | a :: as, b :: bs => a == b && startsWithChars as bs

/-- Whether the first character list occurs contiguously in the second. -/
def containsChars (needle : List Char) : List Char → Bool
  | [] => needle.isEmpty
  | b :: bs => startsWithChars needle (b :: bs) || containsChars needle bs

/-- The regex check `/Hydrogen/` against the document title: matches iff
"Hydrogen" occurs as a substring. -/
def titleMatchesHydrogen (title : String) : Bool :=
  containsChars "Hydrogen".toList title.toList

/-- One deterministic run of the storefront as observed by the test suite:
every navigation outcome, rendered element timing and attribute that the
four scenarios in critical.spec.js read. Times are milliseconds from the
start of the enclosing assertion poll; `none` means the element or match
never appears. -/
structure StorefrontWorld where
  /-- `page.goto(url)` result per URL (`none` models a `null` response). -/
  gotoResult : String → Option Response
  /-- The document title of the root page once rendered. -/
  pageTitle : String
  /-- Instant at which the root page title is set. -/
  titleRenderTime : Nat
  /-- First instant the heading matching /recommended products/i is visible. -/
  recommendedHeadingTime : Option Nat
  /-- First instant `.recommended-products-grid` is visible. -/
  recommendedGridTime : Option Nat
  /-- `page.locator('.product-item').count()`. -/
  productItemCount : Nat
  /-- First instant the first `.product-item` is visible. -/
  firstProductItemTime : Option Nat
  /-- `href` attribute of the first `.product-item` (`none` = no attribute). -/
  firstProductHref : Option String
  /-- First instant the product page `h1` is visible. -/
  productH1Time : Option Nat
  /-- First instant the product page `.product` element is visible. -/
  productSectionTime : Option Nat
  /-- `href` of the first `.featured-collection, a[href*="/collections/"]`
  element; `none` both when the attribute is absent and when
  `getAttribute` rejected and the `.catch(() => null)` handler ran. -/
  collectionHref : Option String
  /-- First instant the collection page `h1` is visible. -/
  collectionH1Time : Option Nat
  /-- First instant the collection page `.products-grid` is visible. -/
  collectionGridTime : Option Nat
  /-- First instant the page URL matches /collections/ after the fallback
  navigation. -/
  urlCollectionsMatchTime : Option Nat

/-- Identifies the first assertion (or thrown error) that failed a
scenario; one constructor per `expect`/`throw` site in critical.spec.js. -/
inductive FailSite where
  | rootStatus            -- expect(response?.status()).toBe(200) after goto('/')
  | titleCheck            -- expect(page).toHaveTitle(/Hydrogen/)
  | recommendedHeading    -- heading /recommended products/i visible
  | recommendedGrid       -- .recommended-products-grid visible
  | productCount          -- expect(count).toBeGreaterThan(0)
  | firstProductItem      -- first .product-item visible
  | hrefTruthy            -- expect(productUrl).toBeTruthy()
  | missingUrlThrow       -- throw new Error('No product URL found on homepage')
  | productStatus         -- expect(productResponse?.status()).toBe(200)
  | productH1             -- product page h1 visible
  | productSection        -- .product visible
  | collectionStatus      -- expect(collectionResponse?.status()).toBe(200)
  | collectionH1          -- collection page h1 visible
  | collectionGrid        -- .products-grid visible
  | collectionsStatus     -- expect(collectionsResponse?.status()).toBe(200)
  | urlPattern            -- expect(page).toHaveURL(/collections/)
  deriving DecidableEq, Repr

/-- Outcome of one scenario. -/
inductive TestResult where
  | passed
  | failed (site : FailSite)
  deriving DecidableEq, Repr

/-- A scenario run: its result and the ordered list of URLs it passed to
`page.goto` before ending. -/
structure TestOutcome where
  result : TestResult
  navigations : List String
  deriving DecidableEq, Repr

/-- Test 1, `app loads successfully`:
goto('/'); expect status 200; expect title matches /Hydrogen/ within 10s. -/
def appLoadsSuccessfully (w : StorefrontWorld) : TestOutcome :=
  if !respStatusIs200 (w.gotoResult "/") then ⟨.failed .rootStatus, ["/"]⟩
  else if !(titleMatchesHydrogen w.pageTitle && w.titleRenderTime ≤ 10000) then
    ⟨.failed .titleCheck, ["/"]⟩
  else ⟨.passed, ["/"]⟩

/-- Test 2, `homepage renders products`:
goto('/'); status 200; recommended-products heading visible within 15s;
`.recommended-products-grid` visible within 15s; `.product-item` count
strictly greater than 0; first `.product-item` visible within 10s. -/
def homepageRendersProducts (w : StorefrontWorld) : TestOutcome :=
  if !respStatusIs200 (w.gotoResult "/") then ⟨.failed .rootStatus, ["/"]⟩
  else if !visibleWithin w.recommendedHeadingTime 15000 then
    ⟨.failed .recommendedHeading, ["/"]⟩
  else if !visibleWithin w.recommendedGridTime 15000 then
    ⟨.failed .recommendedGrid, ["/"]⟩
  else if !(decide (0 < w.productItemCount)) then ⟨.failed .productCount, ["/"]⟩
  else if !visibleWithin w.firstProductItemTime 10000 then
    ⟨.failed .firstProductItem, ["/"]⟩
  else ⟨.passed, ["/"]⟩

/-- Test 3, `product page loads and renders product details`:
goto('/'); status 200; grid visible within 15s; first `.product-item`
visible within 10s; read its `href`; `expect(productUrl).toBeTruthy()`;
the explicit `throw new Error('No product URL found on homepage')` guard
(unreachable after a passing truthiness assertion); goto(productUrl);
status 200; `h1` visible within 10s; `.product` visible within 10s. -/
def productPageTest (w : StorefrontWorld) : TestOutcome :=
  if !respStatusIs200 (w.gotoResult "/") then ⟨.failed .rootStatus, ["/"]⟩
  else if !visibleWithin w.recommendedGridTime 15000 then
    ⟨.failed .recommendedGrid, ["/"]⟩
  else if !visibleWithin w.firstProductItemTime 10000 then
    ⟨.failed .firstProductItem, ["/"]⟩
  else if !truthyAttr w.firstProductHref then ⟨.failed .hrefTruthy, ["/"]⟩
  else
    match w.firstProductHref with
    | none => ⟨.failed .missingUrlThrow, ["/"]⟩
    | some productUrl =>
      if !respStatusIs200 (w.gotoResult productUrl) then
        ⟨.failed .productStatus, ["/", productUrl]⟩
      else if !visibleWithin w.productH1Time 10000 then
        ⟨.failed .productH1, ["/", productUrl]⟩
      else if !visibleWithin w.productSectionTime 10000 then
        ⟨.failed .productSection, ["/", productUrl]⟩
      else ⟨.passed, ["/", productUrl]⟩

/-- Test 4, `collections page loads and displays products`:
goto('/'); status 200; read the first collection link `href` (errors
caught to `null`); if the href is truthy, goto it, assert status 200,
`h1` visible within 15s and `.products-grid` visible within 15s;
otherwise fall back to goto('/collections'), assert status 200 and that
the page URL matches /collections/ within 10s. -/
def collectionsPageTest (w : StorefrontWorld) : TestOutcome :=
  if !respStatusIs200 (w.gotoResult "/") then ⟨.failed .rootStatus, ["/"]⟩
  else if truthyAttr w.collectionHref then
    match w.collectionHref with
    | none => ⟨.failed .collectionStatus, ["/"]⟩   -- unreachable: truthy ⇒ some
    | some collectionHref =>
      if !respStatusIs200 (w.gotoResult collectionHref) then
        ⟨.failed .collectionStatus, ["/", collectionHref]⟩
      else if !visibleWithin w.collectionH1Time 15000 then
        ⟨.failed .collectionH1, ["/", collectionHref]⟩
      else if !visibleWithin w.collectionGridTime 15000 then
        ⟨.failed .collectionGrid, ["/", collectionHref]⟩
      else ⟨.passed, ["/", collectionHref]⟩
  else
    if !respStatusIs200 (w.gotoResult "/collections") then
      ⟨.failed .collectionsStatus, ["/", "/collections"]⟩
    else if !visibleWithin w.urlCollectionsMatchTime 10000 then
      ⟨.failed .urlPattern, ["/", "/collections"]⟩
    else ⟨.passed, ["/", "/collections"]⟩

/-! ## CI/CD pipeline model

The workflow files (`.github/workflows/ci.yml`, `pr-preview.yml`,
`merge-queue.yml`, `rollback.yml`) are not in the repository snapshot;
only the CI documentation (`.github/README.md` and the setup summary)
describes them. The definitions below are therefore modelled from the
spec, following the step patterns quoted in the in-repo documentation.
GitHub Actions semantics assumed throughout: steps of a job run strictly
sequentially; a step starts only after the previous step completed; a
step with no `if:` condition runs only while all previous steps
succeeded; a step whose `if:` condition is false is reported as skipped,
not failed, and the job continues. -/

/-- A source revision (commit), identified by its hash. -/
structure Revision where
  id : Nat
  deriving DecidableEq, Repr

/-- Repository events the pipeline reacts to. -/
inductive TriggerEvent where
  /-- Pull request opened / synchronized / reopened; `sameRepo` is false
  for pull requests from an external fork. -/
  | pullRequest (sameRepo : Bool)
  /-- A change admitted to the serialized merge queue. -/
  | mergeGroup
  /-- `workflow_run`: the merge-queue workflow completed; `succeeded`
  records its conclusion. -/
  | mergeQueueCompleted (succeeded : Bool)
  /-- Manual `workflow_dispatch`. -/
  | manualDispatch
  deriving DecidableEq, Repr

/-- Status of a single workflow step. -/
inductive StepStatus where
  | success
  | failure
  | skipped
  deriving DecidableEq, Repr

/-- Modelled from the spec: the Integration Check (ci.yml) job. Inputs a
node version and an optional Playwright base URL (empty string = not
supplied); runs checkout/setup, the check (lint and build) step, and —
only `if: inputs.playwright-base-url != ''` — the e2e test step against
that URL. `checkOk` is the outcome of the check step, `e2eOk url` the
outcome of the acceptance suite against `url`. -/
structure CIRunRecord where
  checkStatus : StepStatus
  e2eStatus : StepStatus
  /-- The base URL the e2e step actually ran against, when it ran. -/
  e2eRanAgainst : Option String
  deriving DecidableEq, Repr

def ciRun (playwrightBaseUrl : String) (checkOk : Bool)
    (e2eOk : String → Bool) : CIRunRecord :=
  if checkOk then
    if playwrightBaseUrl ≠ "" then
      { checkStatus := .success
        e2eStatus := if e2eOk playwrightBaseUrl then .success else .failure
        e2eRanAgainst := some playwrightBaseUrl }
    else
      { checkStatus := .success, e2eStatus := .skipped, e2eRanAgainst := none }
  else
    { checkStatus := .failure, e2eStatus := .skipped, e2eRanAgainst := none }

/-- A CI run fails iff one of its executed steps failed. -/
def ciRunFailed (r : CIRunRecord) : Bool :=
  r.checkStatus == .failure || r.e2eStatus == .failure

/-- Steps of the merge-queue `deploy-production` job, in source order
(Merge Queue Deployment pattern in the CI documentation). -/
inductive MQStep where
  | checkout
  | setupNode
  | shopifyAuth
  | deployProduction
  | e2eTests
  deriving DecidableEq, Repr

/-- Modelled from the spec: the ordered step list of the merge-queue
deploy-production job — deploy to production strictly before the e2e
test step. -/
def mergeQueueSteps : List MQStep :=
  [.checkout, .setupNode, .shopifyAuth, .deployProduction, .e2eTests]

/-- Sequential GitHub Actions step execution: each step runs only after
the previous one completed, and only while every previous step
succeeded; the first failure ends the job. `ok s` is the outcome step
`s` would have if it runs. Returns the executed steps in order with
their outcomes. -/
def runJobSteps (ok : MQStep → Bool) : List MQStep → List (MQStep × Bool)
  | [] => []
  | s :: rest =>
    if ok s then (s, true) :: runJobSteps ok rest else [(s, false)]

/-- The steps the merge-queue deploy-production job executes, in order. -/
def mergeQueueExecuted (ok : MQStep → Bool) : List MQStep :=
  (runJobSteps ok mergeQueueSteps).map Prod.fst

/-- Modelled from the spec: whether the PR preview workflow runs for an
event. It triggers on pull request events, and only for proposed changes
originating from within the same repository — never for external forks,
since authentication secrets are not exposed to fork-originated runs. -/
def previewPublisherRuns : TriggerEvent → Bool
  | .pullRequest sameRepo => sameRepo
  | _ => false

/-- Modelled from the spec: number of preview deployments the Preview
Publisher performs for an event; the deploy step runs only when the
workflow runs at all and its CI job succeeded. -/
def previewDeployCount (ev : TriggerEvent) (ciOk : Bool) : Nat :=
  if previewPublisherRuns ev && ciOk then 1 else 0

/-- A Rollback Agent run: the revision it checks out and redeploys
(`none` when the history has no predecessor to check out). -/
structure RollbackRun where
  target : Option Revision
  deriving DecidableEq, Repr

/-- Modelled from the spec: the rollback workflow is triggered by
`workflow_run` exactly when the merge-queue workflow completed with
failure; the one triggered run checks out the previous commit —
`HEAD~1` of the history whose head is the failed revision — and
redeploys it. `history` lists revisions newest first. -/
def rollbackRunsFor (history : List Revision) :
    TriggerEvent → List RollbackRun
  | .mergeQueueCompleted succeeded =>
    if succeeded then [] else [⟨history.get? 1⟩]
  | _ => []

/-! ## Route loader embedding (app/routes/account_.login.jsx) -/

/-- `context.storefront.i18n`: the localization selection. -/
structure I18n where
  country : String
  deriving DecidableEq, Repr

/-- `context.storefront`: only the `i18n` field is read by the loader. -/
structure Storefront where
  i18n : I18n
  deriving DecidableEq, Repr

/-- The options object passed to `customerAccount.login`. -/
structure LoginOptions where
  countryCode : String
  deriving DecidableEq, Repr

/-- `context.customerAccount`: the platform SDK client; `login` is
abstract, returning a value of the SDK response type `R`. -/
structure CustomerAccount (R : Type) where
  login : LoginOptions → R

/-- The route loader argument `context`. -/
structure AppLoadContext (R : Type) where
  customerAccount : CustomerAccount R
  storefront : Storefront

/-- The account login route loader: returns
`context.customerAccount.login({countryCode: context.storefront.i18n.country})`. -/
def loader {R : Type} (context : AppLoadContext R) : R :=
  context.customerAccount.login ⟨context.storefront.i18n.country⟩

/-! ## Concrete storefront runs used to instantiate the theorems -/

/-- A run in which every navigation returns 200, every element renders
immediately and one product is listed. -/
def wAllGood : StorefrontWorld where
  gotoResult := fun _ => some ⟨200⟩
  pageTitle := "Hydrogen | Home"
  titleRenderTime := 0
  recommendedHeadingTime := some 0
  recommendedGridTime := some 0
  productItemCount := 1
  firstProductItemTime := some 0
  firstProductHref := some "/products/snowboard"
  productH1Time := some 0
  productSectionTime := some 0
  collectionHref := some "/collections/featured"
  collectionH1Time := some 0
  collectionGridTime := some 0
  urlCollectionsMatchTime := some 0

/-- As `wAllGood`, but the homepage renders zero product items. -/
def wZeroProducts : StorefrontWorld :=
  { wAllGood with productItemCount := 0 }

/-- As `wAllGood`, but the first product item has no `href` attribute. -/
def wNoHref : StorefrontWorld :=
  { wAllGood with firstProductHref := none }

/-- No collection link is discoverable, the fallback `/collections`
navigation returns 200 and the URL matches, but no `.products-grid`
is ever displayed. -/
def wFallbackNoGrid : StorefrontWorld :=
  { wAllGood with collectionHref := none, collectionGridTime := none }

/-- Every navigation yields a `null` response. -/
def wAllNull : StorefrontWorld :=
  { wAllGood with gotoResult := fun _ => none }

/-- The root page loads, but the product-detail navigation yields a
`null` response. -/
def wProdNull : StorefrontWorld :=
  { wAllGood with
      gotoResult := fun url => if url = "/" then some ⟨200⟩ else none }

/-- The root page loads, a collection link exists, but navigating to it
yields a `null` response. -/
def wCollNull : StorefrontWorld :=
  { wAllGood with
      gotoResult := fun url => if url = "/" then some ⟨200⟩ else none
      collectionHref := some "/collections/featured" }

/-- The root page loads, no collection link is discoverable, and the
fallback `/collections` navigation yields a `null` response. -/
def wCollsNull : StorefrontWorld :=
  { wAllGood with
      gotoResult := fun url => if url = "/" then some ⟨200⟩ else none
      collectionHref := none }

/-- A concrete login-route context over `R := String`. -/
def ctxW : AppLoadContext String where
  customerAccount := ⟨fun opts => "login:" ++ opts.countryCode⟩
  storefront := ⟨⟨"US"⟩⟩

/-- As `ctxW`, but with unrelated context state (a different page title
world would go here): same login function, same country. -/
def ctxW2 : AppLoadContext String where
  customerAccount := ctxW.customerAccount
  storefront := ⟨⟨"US"⟩⟩

/-! ## Theorems -/

/-- C1: for every automatically triggered Rollback Agent run following a
Production Publisher (merge queue) failure, the revision it checks out
and redeploys is the predecessor of the failed revision (`HEAD~1` of the
history headed by the failed revision), never the failed revision
itself, and exactly one such rollback run is triggered per failure. -/
theorem rollback_checks_out_predecessor (history : List Revision)
    (failed : Revision) (hnodup : history.Nodup)
    (hhead : history.get? 0 = some failed) :
    (rollbackRunsFor history (.mergeQueueCompleted false)).length = 1 ∧
    ∀ run ∈ rollbackRunsFor history (.mergeQueueCompleted false),
      run.target = history.get? 1 ∧ run.target ≠ some failed := by
  refine ⟨by simp [rollbackRunsFor], ?_⟩
  intro run hrun
  simp only [rollbackRunsFor, Bool.false_eq_true, if_false,
    List.mem_singleton] at hrun
  subst hrun
  refine ⟨rfl, ?_⟩
  cases history with
  | nil => simp at hhead
  | cons a tl =>
    have ha : a = failed := by simpa using hhead
    cases tl with
    | nil => simp
    | cons b tl2 =>
      have hnotmem : a ∉ b :: tl2 := (List.nodup_cons.mp hnodup).1
      have hne : b ≠ failed := by
        intro hb
        exact hnotmem (by simp [ha, hb])
      simpa using hne

/-- C1 witness: a two-revision history with a failed head. -/
theorem rollback_checks_out_predecessor_witness :
    ([⟨2⟩, ⟨1⟩] : List Revision).Nodup ∧
    ((rollbackRunsFor [⟨2⟩, ⟨1⟩] (.mergeQueueCompleted false)).length = 1 ∧
     ∀ run ∈ rollbackRunsFor [⟨2⟩, ⟨1⟩] (.mergeQueueCompleted false),
       run.target = ([⟨2⟩, ⟨1⟩] : List Revision).get? 1 ∧
       run.target ≠ some ⟨2⟩) :=
  ⟨by decide,
   rollback_checks_out_predecessor [⟨2⟩, ⟨1⟩] ⟨2⟩ (by decide) (by decide)⟩

/-- C2: in the merge-queue deploy-production job, the e2e test step
executes only if the deploy-production step succeeded, and the deploy
step appears strictly before the test step in the executed sequence —
deploy and test are sequential, never in parallel. -/
theorem mq_e2e_requires_successful_deploy (ok : MQStep → Bool)
    (h : MQStep.e2eTests ∈ mergeQueueExecuted ok) :
    ok .deployProduction = true ∧
    MQStep.deployProduction ∈ mergeQueueExecuted ok ∧
    (mergeQueueExecuted ok).indexOf MQStep.deployProduction <
      (mergeQueueExecuted ok).indexOf MQStep.e2eTests := by
  cases h1 : ok .checkout <;> cases h2 : ok .setupNode <;>
    cases h3 : ok .shopifyAuth <;> cases h4 : ok .deployProduction <;>
      cases h5 : ok .e2eTests <;>
        simp_all [mergeQueueExecuted, mergeQueueSteps, runJobSteps]

/-- C2 witness: the run in which every step succeeds. -/
theorem mq_e2e_requires_successful_deploy_witness :
    MQStep.e2eTests ∈ mergeQueueExecuted (fun _ => true) ∧
    ((fun _ => true) : MQStep → Bool) MQStep.deployProduction = true ∧
    MQStep.deployProduction ∈ mergeQueueExecuted (fun _ => true) ∧
    (mergeQueueExecuted (fun _ => true)).indexOf MQStep.deployProduction <
      (mergeQueueExecuted (fun _ => true)).indexOf MQStep.e2eTests :=
  ⟨by decide, mq_e2e_requires_successful_deploy (fun _ => true) (by decide)⟩

/-- C3 counterexample: an Integration Check run with a base URL supplied
whose check (lint/build) step fails: the acceptance-test step is not
executed (it is skipped), refuting the claim that in every run with a
base URL supplied the acceptance-test stage executes against it. -/
theorem ci_url_supplied_but_skipped :
    ("https://prod.example" : String) ≠ "" ∧
    (ciRun "https://prod.example" false (fun _ => true)).e2eRanAgainst
      = none ∧
    (ciRun "https://prod.example" false (fun _ => true)).e2eStatus
      = .skipped := by
  decide

/-- C3 amended: with no base URL the acceptance-test step is not
executed, is reported skipped (never failed), and the run fails iff the
check step failed; with a base URL supplied AND the check step
succeeding, the acceptance-test step executes against exactly that URL
and is not reported skipped. -/
theorem ci_acceptance_conditional (url : String) (checkOk : Bool)
    (e2eOk : String → Bool) :
    (url = "" →
      (ciRun url checkOk e2eOk).e2eStatus = .skipped ∧
      (ciRun url checkOk e2eOk).e2eRanAgainst = none ∧
      (ciRunFailed (ciRun url checkOk e2eOk) = true ↔ checkOk = false)) ∧
    (url ≠ "" → checkOk = true →
      (ciRun url checkOk e2eOk).e2eRanAgainst = some url ∧
      (ciRun url checkOk e2eOk).e2eStatus ≠ .skipped) := by
  constructor
  · intro h
    subst h
    cases checkOk <;> simp [ciRun, ciRunFailed]
  · intro hne hok
    subst hok
    cases he : e2eOk url <;> simp [ciRun, ciRunFailed, hne, he]

/-- C3 witness: the skip branch at an empty URL, and the execution
branch at a concrete URL with a passing check step. -/
theorem ci_acceptance_conditional_witness :
    ((ciRun "" true (fun _ => true)).e2eStatus = .skipped ∧
     (ciRun "" true (fun _ => true)).e2eRanAgainst = none ∧
     (ciRunFailed (ciRun "" true (fun _ => true)) = true ↔
       true = false)) ∧
    ((ciRun "https://x" true (fun _ => true)).e2eRanAgainst
        = some "https://x" ∧
     (ciRun "https://x" true (fun _ => true)).e2eStatus ≠ .skipped) :=
  ⟨(ci_acceptance_conditional "" true (fun _ => true)).1 rfl,
   (ci_acceptance_conditional "https://x" true (fun _ => true)).2
     (by decide) rfl⟩

/-- C4: the Preview Publisher never runs, and never deploys a preview,
for a proposed change originating from an external fork; any event for
which it runs is a same-repository pull request event. -/
theorem preview_fork_never_runs (ciOk : Bool) :
    previewPublisherRuns (.pullRequest false) = false ∧
    previewDeployCount (.pullRequest false) ciOk = 0 ∧
    ∀ ev, previewPublisherRuns ev = true → ev = .pullRequest true := by
  refine ⟨rfl, by simp [previewDeployCount, previewPublisherRuns], ?_⟩
  intro ev h
  cases ev <;> simp_all [previewPublisherRuns]

/-- C4 witness: fork event blocked, same-repo pull request admitted. -/
theorem preview_fork_never_runs_witness :
    previewPublisherRuns (.pullRequest false) = false ∧
    previewDeployCount (.pullRequest false) true = 0 ∧
    TriggerEvent.pullRequest true = .pullRequest true :=
  ⟨(preview_fork_never_runs true).1, (preview_fork_never_runs true).2.1,
   (preview_fork_never_runs true).2.2 (.pullRequest true) (by decide)⟩

/-- C5: in `homepage renders products`, when the run reaches the
listing-count assertion (navigation and the two visibility assertions
pass) and zero product items are rendered, the scenario fails at the
count assertion; and the scenario passes only when the number of
rendered product items is strictly positive. -/
theorem homepage_product_count_gate (w : StorefrontWorld) :
    ((respStatusIs200 (w.gotoResult "/") = true ∧
      visibleWithin w.recommendedHeadingTime 15000 = true ∧
      visibleWithin w.recommendedGridTime 15000 = true ∧
      w.productItemCount = 0) →
      (homepageRendersProducts w).result = .failed .productCount) ∧
    ((homepageRendersProducts w).result = .passed →
      0 < w.productItemCount) := by
  constructor
  · rintro ⟨h1, h2, h3, h4⟩
    simp [homepageRendersProducts, h1, h2, h3, h4]
  · intro hp
    rcases Nat.eq_zero_or_pos w.productItemCount with h0 | h0
    · exfalso
      simp only [homepageRendersProducts] at hp
      split_ifs at hp
      simp_all
    · exact h0

/-- C5 witness: a zero-product homepage fails at the count assertion; a
one-product homepage passes. -/
theorem homepage_product_count_gate_witness :
    (homepageRendersProducts wZeroProducts).result
      = .failed .productCount ∧
    0 < wAllGood.productItemCount :=
  ⟨(homepage_product_count_gate wZeroProducts).1
     ⟨by decide, by decide, by decide, by decide⟩,
   (homepage_product_count_gate wAllGood).2 (by decide)⟩

/-- C6: in the product-detail scenario, when the first product item
yields no `href` attribute the scenario never navigates past the
homepage, does not pass, and — whenever execution reaches the URL read
— ends with the failed truthiness assertion on the missing URL
(`expect(productUrl).toBeTruthy()`, the assertion guarding the explicit
missing-URL throw). -/
theorem product_missing_href_aborts (w : StorefrontWorld)
    (h : w.firstProductHref = none) :
    (productPageTest w).navigations = ["/"] ∧
    (productPageTest w).result ≠ .passed ∧
    (respStatusIs200 (w.gotoResult "/") = true →
      visibleWithin w.recommendedGridTime 15000 = true →
      visibleWithin w.firstProductItemTime 10000 = true →
      (productPageTest w).result = .failed .hrefTruthy) := by
  refine ⟨?_, ?_, ?_⟩
  · simp only [productPageTest]
    split_ifs <;> simp_all [truthyAttr, h]
  · simp only [productPageTest]
    split_ifs <;> simp_all [truthyAttr, h]
  · intro h1 h2 h3
    simp [productPageTest, h1, h2, h3, h, truthyAttr]

/-- C6 witness: the all-good run with the `href` removed. -/
theorem product_missing_href_aborts_witness :
    (productPageTest wNoHref).navigations = ["/"] ∧
    (productPageTest wNoHref).result ≠ .passed ∧
    (productPageTest wNoHref).result = .failed .hrefTruthy := by
  have happ := product_missing_href_aborts wNoHref (by decide)
  exact ⟨happ.1, happ.2.1, happ.2.2 (by decide) (by decide) (by decide)⟩

/-- C7 counterexample: a run with no discoverable collection link in
which the fallback `/collections` navigation returns 200 and the URL
matches, so the scenario passes, although no product grid is ever
displayed — refuting the clause that the fallback still satisfies the
product-grid contract. -/
theorem collections_fallback_no_grid_cex :
    wFallbackNoGrid.collectionHref = none ∧
    (collectionsPageTest wFallbackNoGrid).result = .passed ∧
    (collectionsPageTest wFallbackNoGrid).navigations
      = ["/", "/collections"] ∧
    visibleWithin wFallbackNoGrid.collectionGridTime 15000 = false := by
  decide

/-- C7 amended: when a truthy collection link is discoverable, the
scenario passes iff the homepage and collection navigations return 200
and both the `h1` and the product grid become visible within 15s; when
no truthy link is discoverable, the scenario falls back to navigating
directly to `/collections` and passes iff both navigations return 200
and the URL matches /collections/ within 10s — the fallback branch
asserts no product grid. -/
theorem collections_scenario_behavior (w : StorefrontWorld) :
    (∀ href, w.collectionHref = some href → href ≠ "" →
      ((collectionsPageTest w).result = .passed ↔
        (respStatusIs200 (w.gotoResult "/") = true ∧
         respStatusIs200 (w.gotoResult href) = true ∧
         visibleWithin w.collectionH1Time 15000 = true ∧
         visibleWithin w.collectionGridTime 15000 = true))) ∧
    (truthyAttr w.collectionHref = false →
      (((collectionsPageTest w).result = .passed ↔
        (respStatusIs200 (w.gotoResult "/") = true ∧
         respStatusIs200 (w.gotoResult "/collections") = true ∧
         visibleWithin w.urlCollectionsMatchTime 10000 = true)) ∧
       (respStatusIs200 (w.gotoResult "/") = true →
         (collectionsPageTest w).navigations = ["/", "/collections"]))) := by
  constructor
  · intro href hh hne
    have hbe : (href == "") = false := by simp [hne]
    cases hb1 : respStatusIs200 (w.gotoResult "/") <;>
      cases hb2 : respStatusIs200 (w.gotoResult href) <;>
        cases hb3 : visibleWithin w.collectionH1Time 15000 <;>
          cases hb4 : visibleWithin w.collectionGridTime 15000 <;>
            simp [collectionsPageTest, hh, truthyAttr, hbe,
              hb1, hb2, hb3, hb4]
  · intro ht
    cases hb1 : respStatusIs200 (w.gotoResult "/") <;>
      cases hb2 : respStatusIs200 (w.gotoResult "/collections") <;>
        cases hb3 : visibleWithin w.urlCollectionsMatchTime 10000 <;>
          simp [collectionsPageTest, ht, hb1, hb2, hb3]

/-- C7 witness: the link branch passing on the all-good run, and the
fallback branch passing with no grid displayed. -/
theorem collections_scenario_behavior_witness :
    (collectionsPageTest wAllGood).result = .passed ∧
    (collectionsPageTest wFallbackNoGrid).result = .passed ∧
    (collectionsPageTest wFallbackNoGrid).navigations
      = ["/", "/collections"] :=
  ⟨((collections_scenario_behavior wAllGood).1 "/collections/featured"
      (by decide) (by decide)).mpr
    ⟨by decide, by decide, by decide, by decide⟩,
   (((collections_scenario_behavior wFallbackNoGrid).2 (by decide)).1).mpr
    ⟨by decide, by decide, by decide⟩,
   ((collections_scenario_behavior wFallbackNoGrid).2 (by decide)).2
     (by decide)⟩

/-- C8: the `app loads successfully` scenario passes iff the root
navigation returns HTTP 200, the title contains "Hydrogen", and the
title is rendered within the 10-second (10000 ms) timeout bound. -/
theorem app_loads_pass_iff (w : StorefrontWorld) :
    (appLoadsSuccessfully w).result = .passed ↔
      (respStatusIs200 (w.gotoResult "/") = true ∧
       titleMatchesHydrogen w.pageTitle = true ∧
       w.titleRenderTime ≤ 10000) := by
  by_cases hb3 : w.titleRenderTime ≤ 10000 <;>
    cases hb1 : respStatusIs200 (w.gotoResult "/") <;>
      cases hb2 : titleMatchesHydrogen w.pageTitle <;>
        simp_all [appLoadsSuccessfully]

/-- C8 witness: the all-good run passes. -/
theorem app_loads_pass_iff_witness :
    (appLoadsSuccessfully wAllGood).result = .passed :=
  (app_loads_pass_iff wAllGood).mpr ⟨by decide, by decide, by decide⟩

/-- C9: every navigation in the suite is immediately gated by a
status-200 assertion: whenever a navigation yields a `null` response,
the scenario performing it fails at exactly that status assertion
instead of proceeding — for the root navigation of all four scenarios,
for the product-detail navigation, for the collection-link navigation,
and for the fallback `/collections` navigation. -/
theorem nav_null_response_fails (w : StorefrontWorld) :
    (w.gotoResult "/" = none →
      (appLoadsSuccessfully w).result = .failed .rootStatus ∧
      (homepageRendersProducts w).result = .failed .rootStatus ∧
      (productPageTest w).result = .failed .rootStatus ∧
      (collectionsPageTest w).result = .failed .rootStatus) ∧
    (∀ url, w.firstProductHref = some url → url ≠ "" →
      w.gotoResult url = none →
      respStatusIs200 (w.gotoResult "/") = true →
      visibleWithin w.recommendedGridTime 15000 = true →
      visibleWithin w.firstProductItemTime 10000 = true →
      (productPageTest w).result = .failed .productStatus) ∧
    (∀ href, w.collectionHref = some href → href ≠ "" →
      w.gotoResult href = none →
      respStatusIs200 (w.gotoResult "/") = true →
      (collectionsPageTest w).result = .failed .collectionStatus) ∧
    (truthyAttr w.collectionHref = false →
      w.gotoResult "/collections" = none →
      respStatusIs200 (w.gotoResult "/") = true →
      (collectionsPageTest w).result = .failed .collectionsStatus) := by
  refine ⟨?_, ?_, ?_, ?_⟩
  · intro h
    have hr : respStatusIs200 (w.gotoResult "/") = false := by
      simp [h, respStatusIs200]
    exact ⟨by simp [appLoadsSuccessfully, hr],
           by simp [homepageRendersProducts, hr],
           by simp [productPageTest, hr],
           by simp [collectionsPageTest, hr]⟩
  · intro url hu hne hnull h1 h2 h3
    have hbe : (url == "") = false := by simp [hne]
    have hr : respStatusIs200 (w.gotoResult url) = false := by
      simp [hnull, respStatusIs200]
    simp [productPageTest, h1, h2, h3, hu, truthyAttr, hbe, hr]
  · intro href hh hne hnull h1
    have hbe : (href == "") = false := by simp [hne]
    have hr : respStatusIs200 (w.gotoResult href) = false := by
      simp [hnull, respStatusIs200]
    simp [collectionsPageTest, h1, hh, truthyAttr, hbe, hr]
  · intro ht hnull h1
    have hr : respStatusIs200 (w.gotoResult "/collections") = false := by
      simp [hnull, respStatusIs200]
    simp [collectionsPageTest, h1, ht, hr]

/-- C9 witness: concrete null-response runs for the root navigation,
the product-detail navigation, the collection-link navigation, and the
fallback navigation. -/
theorem nav_null_response_fails_witness :
    (appLoadsSuccessfully wAllNull).result = .failed .rootStatus ∧
    (productPageTest wProdNull).result = .failed .productStatus ∧
    (collectionsPageTest wCollNull).result = .failed .collectionStatus ∧
    (collectionsPageTest wCollsNull).result
      = .failed .collectionsStatus :=
  ⟨((nav_null_response_fails wAllNull).1 rfl).1,
   (nav_null_response_fails wProdNull).2.1 "/products/snowboard"
     (by decide) (by decide) (by decide) (by decide) (by decide)
     (by decide),
   (nav_null_response_fails wCollNull).2.2.1 "/collections/featured"
     (by decide) (by decide) (by decide) (by decide),
   (nav_null_response_fails wCollsNull).2.2.2 (by decide) (by decide)
     (by decide)⟩

/-- C10: the account login route loader returns exactly the value of
`context.customerAccount.login` at `countryCode =
context.storefront.i18n.country`, and depends on nothing else in the
context: two contexts agreeing on the login function and the country
yield equal loader results. -/
theorem loader_delegates_login {R : Type} (context : AppLoadContext R) :
    loader context
      = context.customerAccount.login ⟨context.storefront.i18n.country⟩ ∧
    ∀ context2 : AppLoadContext R,
      context2.customerAccount.login = context.customerAccount.login →
      context2.storefront.i18n.country
        = context.storefront.i18n.country →
      loader context2 = loader context := by
  refine ⟨rfl, ?_⟩
  intro context2 hlogin hcountry
  simp [loader, hlogin, hcountry]

/-- C10 witness: a concrete context over `R := String`, and a second
context with the same login function and country. -/
theorem loader_delegates_login_witness :
    loader ctxW = ctxW.customerAccount.login ⟨"US"⟩ ∧
    loader ctxW2 = loader ctxW :=
  ⟨(loader_delegates_login ctxW).1,
   (loader_delegates_login ctxW).2 ctxW2 rfl rfl⟩

end MommaBear
